import Mathlib

/-!
Shallow embedding of the resilience / scheduling core of the Instagram
monitor repository (files `api_client.py`, `enhanced_monitor.py`,
`enhanced_bot.py`, `config.py`), together with proofs about the embedded
definitions.

Conventions used throughout:

* Python floats (wall-clock times, response times, scores, delays) are
  modelled as rationals (`ℚ`); counters are `ℕ` or `ℤ` as appropriate.
* Network I/O (`aiohttp` requests) is modelled by an oracle: a list of
  `APIResponse` values consumed one per `_make_request` call.
* `random.choice` is modelled by an extra `pick : ℕ` oracle argument that
  selects an index into the candidate list; deterministic strategies
  ignore it.
* Python `Dict[str, Any]` values are modelled by the inductive `PVal`
  type of JSON-like values, with dictionaries as association lists.
* Wall-clock reads (`datetime.now()`, `time.time()`) are passed in as an
  explicit `now` argument.
-/

/-- Python-style dynamic value, the shape of JSON payloads handled by the
client (`Dict[str, Any]` in the source). -/
inductive PVal where
  | pstr  : String → PVal
  | pint  : Int → PVal
  | pbool : Bool → PVal
  | pnone : PVal
  | pdict : List (String × PVal) → PVal

/-- Lookup in a Python dict (`d.get(k)`), modelled on an association list;
`none` is Python `None` / a missing key. -/
def dictGet (d : List (String × PVal)) (k : String) : Option PVal :=
  (d.find? (fun p => p.1 == k)).map (·.2)

/-- Lookup with a default (`d.get(k, dflt)`). -/
def dictGetD (d : List (String × PVal)) (k : String) (dflt : PVal) : PVal :=
  (dictGet d k).getD dflt

/-- Python truthiness of a `PVal` (`bool(v)`). -/
def PVal.truthy : PVal → Bool
  | .pstr s  => s != ""
  | .pint n  => n != 0
  | .pbool b => b
  | .pnone   => false
  | .pdict d => !d.isEmpty

/-- Python `str(v)`.  Only the cases that the client's normalisation code
can actually receive matter; `str` of a nested dict is abbreviated (no
modelled code path renders a dict). -/
def pyStr : PVal → String
  | .pstr s  => s
  | .pint n  => toString n
  | .pbool b => if b then "True" else "False"
  | .pnone   => "None"
  | .pdict _ => "dict"

/-- Python `s.lower()`. -/
def pyLower (s : String) : String := ⟨s.data.map Char.toLower⟩

/-- Python `s.strip()`: drop leading and trailing whitespace. -/
def pyStrip (s : String) : String :=
  ⟨((s.data.dropWhile Char.isWhitespace).reverse.dropWhile Char.isWhitespace).reverse⟩

/-- Python `s.replace(c, '')` for a one-character pattern — the only form
of `replace` the source uses: every occurrence of the character is
removed. -/
def pyRemoveChar (s : String) (c : Char) : String :=
  ⟨s.data.filter (fun d => d ≠ c)⟩

/-- Decimal digits to a number; `none` on a non-digit or on no digits at
all. -/
def digitsToNatAux : List Char → ℕ → Option ℕ
  | [], acc => some acc
  | c :: rest, acc =>
    if c.isDigit then digitsToNatAux rest (acc * 10 + (c.toNat - 48)) else none

/-- Parse a non-empty all-digit string. -/
def digitsToNat : List Char → Option ℕ
  | [] => none
  | l => digitsToNatAux l 0

/-- Python `int(s)` restricted to optionally-signed decimal literals;
`none` models the `ValueError` on anything else. -/
def pyInt (s : String) : Option ℤ :=
  match s.data with
  | '-' :: rest => (digitsToNat rest).map (fun n => -(n : ℤ))
  | l => (digitsToNat l).map (fun n => (n : ℤ))

/-- Auxiliary for substring search: does `needle` occur in `hay`
(as a contiguous run)? -/
def listContainsRun (needle : List Char) : List Char → Bool
  | [] => needle.isEmpty
  | c :: rest => List.isPrefixOf needle (c :: rest) || listContainsRun needle rest

/-- Python `needle in hay` on strings. -/
def pyContains (hay needle : String) : Bool :=
  listContainsRun needle.toList hay.toList

/-- Structured API response (`APIResponse` dataclass in `api_client.py`).
The `data` field is the Python dict payload. -/
structure APIResponse where
  success : Bool
  data : List (String × PVal)
  status_code : ℕ
  error : Option String := none
  proxy_used : Option String := none
  response_time : ℚ := 0
  api_url : Option String := none

/-- Per-URL health statistics (one entry of `APIURLManager.url_stats`).
`last_success` / `last_failure` hold wall-clock timestamps. -/
structure URLStats where
  success_count : ℕ
  failure_count : ℕ
  total_response_time : ℚ
  avg_response_time : ℚ
  last_success : Option ℚ
  last_failure : Option ℚ
  consecutive_failures : ℕ
  is_active : Bool
deriving DecidableEq, Repr

/-- Fresh statistics record, as initialised in `APIURLManager.__init__`. -/
def URLStats.init : URLStats :=
  ⟨0, 0, 0, 0, none, none, 0, true⟩

/-- URL-rotation strategy (`strategy` constructor argument; any string
other than the three recognised ones falls through to the final `else`
branch of `get_next_url`). -/
inductive Strategy where
  | round_robin
  | random
  | health_based
  | other : String → Strategy
deriving DecidableEq, Repr

/-- State of `APIURLManager`.  The Python `url_stats` dict is keyed by
exactly the configured URLs (it is built from `self.urls` in `__init__`
and its key set never changes), so the `url in self.url_stats` membership
tests are modelled as membership in `urls`; the statistics table itself is
a total function read only at configured URLs. -/
structure APIURLManager where
  urls : List String
  strategy : Strategy
  current_index : ℕ
  url_stats : String → URLStats

/-- Initial manager state (`APIURLManager.__init__` with a non-empty URL
list; the constructor substitutes a one-element default list when given an
empty one, so `urls` is non-empty in every constructed instance). -/
def APIURLManager.init (urls : List String) (strategy : Strategy) : APIURLManager :=
  ⟨urls, strategy, 0, fun _ => URLStats.init⟩

/-- Pointwise update of the statistics table at one URL. -/
def updateStats (stats : String → URLStats) (url : String) (f : URLStats → URLStats) :
    String → URLStats :=
  fun u => if u = url then f (stats u) else stats u

/-- The body of `APIURLManager.mark_success`: increment the success
counter, reset `consecutive_failures`, reactivate, and update the running
average response time.  Outside the configured pool the method is a
no-op (the `url in self.url_stats` guard fails). -/
def APIURLManager.mark_success (m : APIURLManager) (now : ℚ) (url : String)
    (response_time : ℚ) : APIURLManager :=
  if url ∈ m.urls then
    { m with url_stats := updateStats m.url_stats url (fun s =>
        let success_count := s.success_count + 1
        let total_response_time := s.total_response_time + response_time
        { s with
          success_count := success_count
          consecutive_failures := 0
          last_success := some now
          is_active := true
          total_response_time := total_response_time
          avg_response_time := total_response_time / success_count }) }
  else m

/-- The body of `APIURLManager.mark_failure`: increment the failure
counters and deactivate the URL once `consecutive_failures` reaches 3.
Outside the configured pool the method is a no-op. -/
def APIURLManager.mark_failure (m : APIURLManager) (now : ℚ) (url : String) :
    APIURLManager :=
  if url ∈ m.urls then
    { m with url_stats := updateStats m.url_stats url (fun s =>
        let consecutive_failures := s.consecutive_failures + 1
        { s with
          failure_count := s.failure_count + 1
          consecutive_failures := consecutive_failures
          last_failure := some now
          is_active := if consecutive_failures ≥ 3 then false else s.is_active }) }
  else m

/-- Health score of one URL (`calculate_score` inside
`APIURLManager._health_based_selection`). -/
def calculate_score (s : URLStats) : ℚ :=
  let success : ℚ := s.success_count
  let failure : ℚ := s.failure_count
  let total : ℚ := success + failure
  if total = 0 then 0.5
  else
    let success_rate := success / total
    let avg_time := s.avg_response_time
    let consecutive_penalty := min ((s.consecutive_failures : ℚ) * 0.1) 0.5
    max 0 ((success_rate * 0.7) - min (avg_time / 10) 0.2 - consecutive_penalty)

/-- First score-maximal element of a scored list.  The source sorts the
scored list descending with Python's stable sort and takes the head, so
ties are broken by pool order; the fold below computes exactly that
element.  `none` models the `IndexError` raised on an empty list. -/
def select_best : List (String × ℚ) → Option (String × ℚ)
  | [] => none
  | x :: xs => some (xs.foldl (fun b y => if y.2 > b.2 then y else b) x)

/-- Reset every URL to active (the "reset all URLs if none are active"
loop shared by the three selection strategies). -/
def resetAllActive (stats : String → URLStats) : String → URLStats :=
  fun u => { stats u with is_active := true }

/-- Body of `APIURLManager.get_next_url`, covering the three strategies
and the fallback branch.  Returns the updated manager (the round-robin
index and the global active-reset mutate state) and the chosen URL;
`none` models the `IndexError`/`random.choice` exception possible only
for an empty pool.  `pick` is the `random.choice` oracle. -/
def APIURLManager.get_next_url (m : APIURLManager) (pick : ℕ) :
    APIURLManager × Option String :=
  match m.strategy with
  | .round_robin =>
    let active := m.urls.filter (fun u => (m.url_stats u).is_active)
    let stats := if active = [] then resetAllActive m.url_stats else m.url_stats
    let active := if active = [] then m.urls else active
    let idx := if m.current_index ≥ active.length then 0 else m.current_index
    match active.get? idx with
    | none => ({ m with url_stats := stats, current_index := idx }, none)
    | some url =>
        ({ m with url_stats := stats, current_index := (idx + 1) % active.length },
         some url)
  | .random =>
    let active := m.urls.filter (fun u => (m.url_stats u).is_active)
    let stats := if active = [] then resetAllActive m.url_stats else m.url_stats
    let active := if active = [] then m.urls else active
    ({ m with url_stats := stats }, active.get? (pick % (max active.length 1)))
  | .health_based =>
    let active := m.urls.filter (fun u => (m.url_stats u).is_active)
    let stats := if active = [] then resetAllActive m.url_stats else m.url_stats
    let active := if active = [] then m.urls else active
    let scored := active.map (fun u => (u, calculate_score (stats u)))
    ({ m with url_stats := stats }, (select_best scored).map (·.1))
  | .other _ => (m, m.urls.get? 0)

/-- Configuration parameters of `RateLimiter.__init__`
(`requests_per_minute` and `burst`). -/
structure RateLimiter where
  requests_per_minute : ℕ
  burst : ℕ
deriving DecidableEq, Repr

/-- Mutable state of a `RateLimiter` instance: the rolling list of
admitted request timestamps, the remaining burst tokens (an `int` that
the source only ever decrements or refills), and the time of the last
refill. -/
structure RLState where
  requests : List ℚ
  burst_tokens : ℤ
  last_refill : ℚ
deriving DecidableEq, Repr

/-- State of a freshly constructed limiter (`__init__` at wall-clock time
`t0`). -/
def RLState.init (rl : RateLimiter) (t0 : ℚ) : RLState :=
  ⟨[], rl.burst, t0⟩

/-- One call of `RateLimiter.acquire`, entered at wall-clock time `now`.
The `await asyncio.sleep` + recursive-retry steps are modelled by
recursing with the advanced clock; `fuel` bounds that recursion (`none`
means the fuel ran out, never that the source raises).  Returns the
admission time together with the state after admission. -/
def acquire (rl : RateLimiter) : ℕ → ℚ → RLState → Option (ℚ × RLState)
  | 0, _, _ => none
  | fuel + 1, now, st =>
    let st := if now - st.last_refill ≥ 60 then ⟨[], (rl.burst : ℤ), now⟩ else st
    if st.burst_tokens ≤ 0 then
      acquire rl fuel (now + 1) st
    else
      let st : RLState := { st with requests := st.requests.filter (fun r => r > now - 60) }
      if st.requests.length ≥ rl.requests_per_minute then
        let sleep_time := 60 - (now - st.requests.headD 0)
        if sleep_time > 0 then
          acquire rl fuel (now + sleep_time) st
        else
          some (now, { st with requests := st.requests ++ [now],
                               burst_tokens := st.burst_tokens - 1 })
      else
        some (now, { st with requests := st.requests ++ [now],
                             burst_tokens := st.burst_tokens - 1 })

/-- Run a sequence of `acquire` calls.  `calls` lists the wall-clock
times at which the (single-threaded) caller issues each call; since the
caller only proceeds after the previous call returned, each call is
entered at the later of its issue time and the previous admission time.
Returns the list of admission timestamps and the final state. -/
def acquireRun (rl : RateLimiter) (fuel : ℕ) :
    List ℚ → ℚ → RLState → Option (List ℚ × RLState)
  | [], _, st => some ([], st)
  | t :: ts, clock, st =>
    match acquire rl fuel (max t clock) st with
    | none => none
    | some (a, st') =>
      match acquireRun rl fuel ts a st' with
      | none => none
      | some (as, stFinal) => some (a :: as, stFinal)

/-- Number of admissions in the trailing 60-second window ending at `t`. -/
def admittedInWindow (adms : List ℚ) (t : ℚ) : ℕ :=
  adms.countP (fun a => decide (t - 60 < a) && decide (a ≤ t))

/-- Invariant of the rate-limiter model, carried through every `acquire`
call: burst tokens stay within [0, burst], admission timestamps never run
ahead of the clock, every admission is younger than one refill window,
the admissions since the last refill are paid for by spent burst tokens,
and no single instant holds more than `burst` admissions. -/
def RLInv (burst : ℕ) (now : ℚ) (st : RLState) (adms : List ℚ) : Prop :=
  0 ≤ st.burst_tokens ∧
  st.burst_tokens ≤ (burst : ℤ) ∧
  st.last_refill ≤ now ∧
  (∀ a ∈ adms, a ≤ now) ∧
  (∀ a ∈ adms, a < st.last_refill + 60) ∧
  adms.countP (fun a => decide (st.last_refill ≤ a)) + st.burst_tokens.toNat ≤ burst ∧
  ∀ t : ℚ, adms.countP (fun a => decide (a = t)) ≤ burst

/-- Is this optional dict value the given string?  Models a Python `==`
comparison between a dynamically typed value and a string literal (it is
false whenever the value is missing or not a string). -/
def isStrVal (v : Option PVal) (s : String) : Bool :=
  match v with
  | some (.pstr t) => t == s
  | _ => false

/-- Relevant fields of the `Config` class (`config.py`).  Defaults follow
the source: the Graph API is disabled unless the environment enables it,
3 retry attempts, 2-second base retry delay, consecutive-error ceiling
of 5. -/
structure BotConfig where
  IG_GRAPH_API_ENABLED : Bool
  IG_ACCESS_TOKEN : String
  IG_BUSINESS_ACCOUNT_ID : String
  API_RETRY_ATTEMPTS : ℕ
  API_RETRY_DELAY : ℚ
  MAX_CONSECUTIVE_ERRORS : ℕ

/-- The configuration with every environment variable unset. -/
def BotConfig.default : BotConfig :=
  ⟨false, "", "", 3, 2, 5⟩

/-- The body of `APIClient._truncate_bio`. -/
def truncate_bio (bio : String) (max_length : ℕ) : String :=
  if bio == "" || bio == "N/A" then "N/A"
  else if bio.length ≤ max_length then bio
  else bio.take max_length ++ "..."

/-- The "user not found" verdict the retry loop returns for an HTTP 404
(`get_instagram_profile`, the `status_code == 404` branch). -/
def notFound404 (username : String) (proxy : Option String) (rt : ℚ)
    (api_url : Option String) : APIResponse :=
  { success := true
    data := [("usr", .pstr username), ("st", .pstr "not_found")]
    status_code := 404
    proxy_used := proxy
    response_time := rt
    api_url := api_url }

/-- Happy/sad paths of `APIClient._process_instagram_response` before the
`except` handler; `.error` marks a point where the Python body raises
(`.get` or `len` on a value of the wrong dynamic type). -/
def processCore (resp : APIResponse) (username : String) : Except String APIResponse :=
  let data := resp.data
  if !(isStrVal (dictGet data "status") "ok") then
    .ok { success := true
          data := [("usr", .pstr username), ("st", .pstr "not_found"),
                   ("error", .pstr "User not found or API error")]
          status_code := resp.status_code
          proxy_used := resp.proxy_used
          response_time := resp.response_time
          api_url := resp.api_url }
  else
    let profile := dictGetD data "profile" .pnone
    if !profile.truthy then
      .ok { success := true
            data := [("usr", .pstr username), ("st", .pstr "not_found")]
            status_code := resp.status_code
            proxy_used := resp.proxy_used
            response_time := resp.response_time
            api_url := resp.api_url }
    else
      match profile with
      | .pdict p =>
        let nm := dictGetD p "full_name" (.pstr "N/A")
        let bioVal := dictGetD p "biography" (.pstr "N/A")
        match bioVal with
        | .pstr bio =>
          .ok { success := true
                data := [("usr", dictGetD p "username" (.pstr username)),
                         ("nm", if nm.truthy then nm else .pstr "N/A"),
                         ("id", .pstr (pyStr (dictGetD p "id" (.pstr "N/A")))),
                         ("fw", .pstr (pyStr (dictGetD p "followers" (.pstr "N/A")))),
                         ("fg", .pstr (pyStr (dictGetD p "following" (.pstr "N/A")))),
                         ("ps", .pstr (pyStr (dictGetD p "posts" (.pstr "N/A")))),
                         ("prv", dictGetD p "is_private" (.pbool false)),
                         ("verified", dictGetD p "is_verified" (.pbool false)),
                         ("bio", .pstr (truncate_bio bio 100)),
                         ("st", .pstr "ok"),
                         ("account_creation_year",
                            dictGetD p "account_creation_year" (.pstr "Unknown"))]
                status_code := resp.status_code
                proxy_used := resp.proxy_used
                response_time := resp.response_time
                api_url := resp.api_url }
        | v =>
          if !v.truthy then
            -- `_truncate_bio` returns 'N/A' for any falsy argument
            .ok { success := true
                  data := [("usr", dictGetD p "username" (.pstr username)),
                           ("nm", if nm.truthy then nm else .pstr "N/A"),
                           ("id", .pstr (pyStr (dictGetD p "id" (.pstr "N/A")))),
                           ("fw", .pstr (pyStr (dictGetD p "followers" (.pstr "N/A")))),
                           ("fg", .pstr (pyStr (dictGetD p "following" (.pstr "N/A")))),
                           ("ps", .pstr (pyStr (dictGetD p "posts" (.pstr "N/A")))),
                           ("prv", dictGetD p "is_private" (.pbool false)),
                           ("verified", dictGetD p "is_verified" (.pbool false)),
                           ("bio", .pstr "N/A"),
                           ("st", .pstr "ok"),
                           ("account_creation_year",
                              dictGetD p "account_creation_year" (.pstr "Unknown"))]
                  status_code := resp.status_code
                  proxy_used := resp.proxy_used
                  response_time := resp.response_time
                  api_url := resp.api_url }
          else
            -- `len` on a truthy non-string biography raises; sized non-string
            -- values (dicts) are conflated with this case — no modelled
            -- scenario produces them
            .error "TypeError"
      | _ => .error "AttributeError"

/-- The body of `APIClient._process_instagram_response`, with the
`except` handler folded in. -/
def process_instagram_response (resp : APIResponse) (username : String) : APIResponse :=
  match processCore resp username with
  | .ok r => r
  | .error e =>
    { success := false
      data := []
      status_code := resp.status_code
      error := some ("Error processing response: " ++ e)
      proxy_used := resp.proxy_used
      response_time := resp.response_time
      api_url := resp.api_url }

/-- The response produced by the `except` handler of
`_get_instagram_profile_graph`. -/
def graphErrorResponse (proxy : Option String) : APIResponse :=
  { success := false, data := [], status_code := 0
    error := some "Graph API error", proxy_used := proxy }

/-- A "not found" verdict from the Graph API path. -/
def graphNotFound (username : String) (status : ℕ) (resp : APIResponse) : APIResponse :=
  { success := true
    data := [("usr", .pstr username), ("st", .pstr "not_found")]
    status_code := status
    proxy_used := resp.proxy_used
    response_time := resp.response_time }

/-- The body of `APIClient._get_instagram_profile_graph`.  Consumes one
oracle response for its `_make_request` call (unless it bails out before
making one); the outer `Option` is `none` only when the oracle script is
exhausted.  The inner `Option` is the Python return value (`None` when
the business-account id or access token is missing). -/
def get_instagram_profile_graph (cfg : BotConfig) (username : String)
    (proxy : Option String) (oracle : List APIResponse) :
    Option (Option APIResponse × List APIResponse) :=
  if cfg.IG_BUSINESS_ACCOUNT_ID == "" || cfg.IG_ACCESS_TOKEN == "" then
    some (none, oracle)
  else
    match oracle with
    | [] => none
    | resp :: rest =>
      if !resp.success then
        if resp.status_code == 400 || resp.status_code == 404 then
          match dictGet resp.data "error" with
          | some (.pdict e) =>
            match dictGetD e "message" .pnone with
            | .pstr s =>
              let message := pyLower s
              if pyContains message "no data found" ||
                 pyContains message "cannot find" ||
                 pyContains message "unsupported get request" then
                some (some (graphNotFound username resp.status_code resp), rest)
              else
                some (some resp, rest)
            | v =>
              if v.truthy then
                -- `.lower()` on a truthy non-string raises; the surrounding
                -- try/except converts this into the generic error response
                some (some (graphErrorResponse proxy), rest)
              else
                -- `(... or '')` yields '', which contains none of the markers
                some (some resp, rest)
          | _ => some (some resp, rest)
        else
          some (some resp, rest)
      else
        match dictGet resp.data "business_discovery" with
        | none => some (some (graphNotFound username 404 resp), rest)
        | some bdv =>
          if !bdv.truthy then
            some (some (graphNotFound username 404 resp), rest)
          else
            match bdv with
            | .pdict bd =>
              let nm := dictGetD bd "name" .pnone
              let bio :=
                match dictGetD bd "biography" (.pstr "N/A") with
                | .pstr s => truncate_bio s 100
                | _ => "N/A"
              some (some
                { success := true
                  data := [("usr", dictGetD bd "username" (.pstr username)),
                           ("nm", if nm.truthy then nm else .pstr "N/A"),
                           ("id", .pstr (pyStr (dictGetD bd "id" (.pstr "N/A")))),
                           ("fw", .pstr (pyStr (dictGetD bd "followers_count" (.pstr "N/A")))),
                           ("fg", .pstr (pyStr (dictGetD bd "follows_count" (.pstr "N/A")))),
                           ("ps", .pstr (pyStr (dictGetD bd "media_count" (.pstr "N/A")))),
                           ("prv", .pbool false),
                           ("verified", .pbool ((dictGetD bd "is_verified" (.pbool false)).truthy)),
                           ("bio", .pstr bio),
                           ("st", .pstr "ok")]
                  status_code := 200
                  proxy_used := resp.proxy_used
                  response_time := resp.response_time }, rest)
            | _ =>
              -- `.get` on a truthy non-dict raises; caught by the except
              some (some (graphErrorResponse proxy), rest)

/-- Observable outcome of one `get_instagram_profile` call: the returned
response, the final URL-manager state, the endpoint chosen for each
attempt, the back-off delays slept between attempts, and the number of
attempts consumed. -/
structure LookupRun where
  result : APIResponse
  mgr : APIURLManager
  urls_used : List String
  delays : List ℚ
  attempts : ℕ

/-- The retry loop of `APIClient.get_instagram_profile` (the
`for attempt in range(Config.API_RETRY_ATTEMPTS)` statement).  The list of
remaining attempt indices encodes the loop counter, so `rest = []` is
exactly the Python condition `attempt == Config.API_RETRY_ATTEMPTS - 1`.
One oracle response is consumed per attempt; `none` means the oracle
script was exhausted (or the pool was empty, which a constructed manager
rules out). -/
def profile_retry_loop (cfg : BotConfig) (username : String) (proxy : Option String)
    (now : ℚ) :
    List ℕ → APIURLManager → List APIResponse → List ℕ →
    List String → List ℚ → ℕ → Option LookupRun
  | [], mgr, _, _, used, delays, n =>
    -- for-loop fallthrough, reachable only when API_RETRY_ATTEMPTS = 0
    some ⟨{ success := false, data := [], status_code := 0
            error := some "Max retry attempts exceeded", proxy_used := proxy },
          mgr, used, delays, n⟩
  | attempt :: rest, mgr, oracle, picks, used, delays, n =>
    let step := mgr.get_next_url (picks.headD 0)
    match step.2 with
    | none => none
    | some api_url =>
      match oracle with
      | [] => none
      | resp :: oracleRest =>
        if resp.success then
          some ⟨process_instagram_response resp username,
                (step.1.mark_success now api_url resp.response_time),
                used ++ [api_url], delays, n + 1⟩
        else
          let mgr' := step.1.mark_failure now api_url
          if resp.status_code == 404 then
            some ⟨notFound404 username proxy resp.response_time (some api_url),
                  mgr', used ++ [api_url], delays, n + 1⟩
          else if !rest.isEmpty then
            profile_retry_loop cfg username proxy now rest mgr' oracleRest picks.tail
              (used ++ [api_url]) (delays ++ [cfg.API_RETRY_DELAY * 2 ^ attempt]) (n + 1)
          else
            some ⟨resp, mgr', used ++ [api_url], delays, n + 1⟩

/-- The body of `APIClient.get_instagram_profile`: normalise the
username, optionally consult the Graph API first, then run the retry
loop over the rotated scraper endpoints. -/
def get_instagram_profile (cfg : BotConfig) (mgr : APIURLManager)
    (username : String) (proxy : Option String) (now : ℚ)
    (oracle : List APIResponse) (picks : List ℕ) : Option LookupRun :=
  let username := pyLower (pyStrip (pyRemoveChar username '@'))
  if cfg.IG_GRAPH_API_ENABLED && cfg.IG_ACCESS_TOKEN != "" then
    match get_instagram_profile_graph cfg username proxy oracle with
    | none => none
    | some (graphResp, oracleRest) =>
      match graphResp with
      | some g =>
        if g.success || g.status_code == 404 || g.status_code == 400 then
          some ⟨g, mgr, [], [], 0⟩
        else
          profile_retry_loop cfg username proxy now
            (List.range cfg.API_RETRY_ATTEMPTS) mgr oracleRest picks [] [] 0
      | none =>
        profile_retry_loop cfg username proxy now
          (List.range cfg.API_RETRY_ATTEMPTS) mgr oracleRest picks [] [] 0
  else
    profile_retry_loop cfg username proxy now
      (List.range cfg.API_RETRY_ATTEMPTS) mgr oracle picks [] [] 0

/-- Endpoints an all-attempts-failing lookup walks through: each attempt
asks the selector for a URL, then penalises that URL with
`mark_failure` before the next attempt (mirroring the failing path of
the retry loop). -/
def selector_trace (now : ℚ) : ℕ → APIURLManager → List ℕ → List String
  | 0, _, _ => []
  | k + 1, mgr, picks =>
    let step := mgr.get_next_url (picks.headD 0)
    match step.2 with
    | none => []
    | some url => url :: selector_trace now k (step.1.mark_failure now url) picks.tail

/-- The account-age breakpoint table of
`EnhancedInstagramMonitor.calculate_account_age`: pairs of
(id upper bound, creation year), ascending. -/
def account_age_ranges : List (ℤ × ℤ) :=
  [(1278889, 2010), (17750000, 2011), (279760000, 2012), (900990000, 2013),
   (1629010000, 2014), (2369359761, 2015), (4239516754, 2016),
   (6345108209, 2017), (10016232395, 2018), (27238602159, 2019),
   (43464475395, 2020), (50289297647, 2021), (57464707082, 2022),
   (63313426938, 2023), (70000000000, 2024)]

/-- Year assigned to a numeric id by the breakpoint table: the year of
the first breakpoint whose upper bound the id does not exceed. -/
def account_age_year (uid : ℤ) : Option ℤ :=
  (account_age_ranges.find? (fun p => decide (uid ≤ p.1))).map (·.2)

/-- The body of `EnhancedInstagramMonitor.calculate_account_age`.  The
`datetime.now().year` read is the `current_year` argument; a `user_id`
that `int()` cannot parse (after comma removal) takes the except branch
and yields "Unknown". -/
def calculate_account_age (user_id : String) (current_year : ℤ) : String :=
  if user_id == "N/A" then "Unknown"
  else
    match pyInt (pyRemoveChar user_id ',') with
    | none => "Unknown"
    | some uid =>
      match account_age_year uid with
      | some year =>
        let age := current_year - year
        if age = 0 then s!"Created in {year}"
        else if age = 1 then s!"1 year old ({year})"
        else s!"{age} years old ({year})"
      | none => "Created in 2024"

/-- The `MonitorData` dataclass of `enhanced_monitor.py`.  `send_func` is
an injected callback; alerts sent through it are recorded as `Alert`
events, so the model only keeps an opaque identifier for it. -/
structure MonitorData where
  username : String
  monitor_type : String
  send_func : ℕ
  start_time : ℚ
  is_banned_state : Bool
  check_count : ℕ := 0
  last_known_data : Option (List (String × PVal)) := none
  session_id : ℤ := 0
  consecutive_errors : ℕ := 0
  last_check_time : Option ℚ := none

/-- Python attribute lookup for the string-valued attributes of a
`MonitorData` instance.  The dataclass declares exactly the fields listed
in the structure above; looking up any other name (in particular `type`)
raises `AttributeError`, modelled as `none`. -/
def MonitorData.getattrStr (md : MonitorData) (name : String) : Option String :=
  if name == "username" then some md.username
  else if name == "monitor_type" then some md.monitor_type
  else none

/-- Exception raised by a modelled Python code path. -/
inductive PyError where
  | attributeError
deriving DecidableEq, Repr

/-- The `self.stats` counter dict of `EnhancedInstagramMonitor`.
`proxy_errors` is decremented in one branch, so all counters are `ℤ`. -/
structure MonStats where
  total_checks : ℤ := 0
  successful_checks : ℤ := 0
  failed_checks : ℤ := 0
  bans_detected : ℤ := 0
  unbans_detected : ℤ := 0
  proxy_errors : ℤ := 0
  api_errors : ℤ := 0
deriving DecidableEq, Repr

/-- Alert delivered through an item's `send_func`
(`send_ban_alert` / `send_unban_alert`). -/
inductive Alert where
  | ban : String → Alert
  | unban : String → Alert
deriving DecidableEq, Repr

/-- Environment of one `_process_monitor_data` call: the wall clock, the
proxy handed out by the proxy manager, the response of the
`get_instagram_profile` call, and the response of the without-proxy retry
issued in the proxy-error branch. -/
structure PollEnv where
  now : ℚ
  proxy : Option String
  resp : APIResponse
  retryResp : APIResponse

/-- Effects of one `_process_monitor_data` call: the mutated item,
whether the item removed itself from the queue, the alerts fired, and the
updated statistics. -/
structure PollOutcome where
  md : MonitorData
  removed : Bool
  alerts : List Alert
  stats : MonStats

/-- Does this optional error text mention a proxy
(`'proxy' in (user_data_response.error or '').lower()`)? -/
def mentionsProxy (e : Option String) : Bool :=
  match e with
  | some s => pyContains (pyLower s) "proxy"
  | none => false

/-- The body of `EnhancedInstagramMonitor._process_monitor_data`.  Its
second statement reads `monitor_data.type`; the dataclass field is named
`monitor_type`, so this attribute lookup fails and the call raises
`AttributeError` before any other effect.  The remainder of the body is
embedded faithfully under the (never-taken) successful-lookup branch.
Database logging and proxy-manager bookkeeping are external effects and
are not part of the modelled state. -/
def process_monitor_data (env : PollEnv) (md : MonitorData) (stats : MonStats) :
    Except PyError PollOutcome :=
  match md.getattrStr "username" with
  | none => .error .attributeError
  | some username =>
  match md.getattrStr "type" with
  | none => .error .attributeError
  | some monitor_type =>
    let is_banned_state := md.is_banned_state
    let check_count := md.check_count
    let proxy_url := env.proxy
    let resp := env.resp
    let stats := { stats with total_checks := stats.total_checks + 1 }
    let stats :=
      if resp.success then
        { stats with successful_checks := stats.successful_checks + 1 }
      else
        let stats := { stats with failed_checks := stats.failed_checks + 1 }
        if resp.status_code == 403 && proxy_url.isSome then
          { stats with proxy_errors := stats.proxy_errors + 1 }
        else if mentionsProxy resp.error then
          { stats with proxy_errors := stats.proxy_errors + 1 }
        else
          { stats with api_errors := stats.api_errors + 1 }
    let md := { md with check_count := check_count + 1, last_check_time := some env.now }
    let retried :=
      (resp.status_code == 403 || isStrVal (dictGet resp.data "st") "proxy_error")
        && proxy_url.isSome
    let stepRetry : APIResponse × MonStats :=
      if retried then
        if env.retryResp.success then
          (env.retryResp,
           { stats with successful_checks := stats.successful_checks + 1,
                        proxy_errors := stats.proxy_errors - 1 })
        else (env.retryResp, stats)
      else (resp, stats)
    let resp := stepRetry.1
    let stats := stepRetry.2
    let md :=
      if isStrVal (dictGet resp.data "st") "ok" then
        { md with last_known_data := some resp.data, consecutive_errors := 0 }
      else md
    let currently_banned := isStrVal (dictGet resp.data "st") "not_found"
    if currently_banned && !is_banned_state then
      let md := { md with is_banned_state := true }
      if monitor_type == "ban" then
        .ok ⟨md, true, [.ban username],
             { stats with bans_detected := stats.bans_detected + 1 }⟩
      else
        .ok ⟨md, false, [], stats⟩
    else if !currently_banned && is_banned_state then
      let md := { md with is_banned_state := false }
      if monitor_type == "unban" then
        .ok ⟨md, true, [.unban username],
             { stats with unbans_detected := stats.unbans_detected + 1 }⟩
      else
        .ok ⟨md, false, [], stats⟩
    else
      .ok ⟨md, false, [], stats⟩

/-- Result of running one queue item through one iteration of
`sequential_monitor_loop`: `item` is `none` once the item has left the
queue. -/
structure LoopItemResult where
  item : Option MonitorData
  stats : MonStats
  alerts : List Alert

/-- One item-processing step of `sequential_monitor_loop`, including its
`except` handler: an exception increments the item's
`consecutive_errors` and evicts the item once the ceiling
(`Config.MAX_CONSECUTIVE_ERRORS`) is reached. -/
def monitor_loop_item (ceiling : ℕ) (env : PollEnv) (md : MonitorData)
    (stats : MonStats) : LoopItemResult :=
  match process_monitor_data env md stats with
  | .ok out => ⟨if out.removed then none else some out.md, out.stats, out.alerts⟩
  | .error _ =>
    let md := { md with consecutive_errors := md.consecutive_errors + 1 }
    if md.consecutive_errors ≥ ceiling then ⟨none, stats, []⟩ else ⟨some md, stats, []⟩

/-- Feed a queue item a sequence of polls, one loop iteration each,
accumulating the alerts it fires; stops early if the item leaves the
queue. -/
def monitor_run_polls (ceiling : ℕ) :
    List PollEnv → Option MonitorData → MonStats → List Alert → LoopItemResult
  | [], it, stats, alerts => ⟨it, stats, alerts⟩
  | env :: envs, it, stats, alerts =>
    match it with
    | none => ⟨none, stats, alerts⟩
    | some md =>
      let r := monitor_loop_item ceiling env md stats
      monitor_run_polls ceiling envs r.item r.stats (alerts ++ r.alerts)

/-- A poll whose lookup reports the profile as present. -/
def presentPoll (t : ℚ) : PollEnv :=
  let r : APIResponse :=
    { success := true
      data := [("usr", .pstr "target"), ("nm", .pstr "Target"), ("st", .pstr "ok")]
      status_code := 200, response_time := 1 }
  ⟨t, none, r, r⟩

/-- A poll whose lookup reports the profile as absent (the terminal
"not found" verdict of the client). -/
def absentPoll (t : ℚ) : PollEnv :=
  let r : APIResponse :=
    { success := true
      data := [("usr", .pstr "target"), ("st", .pstr "not_found")]
      status_code := 404, response_time := 1 }
  ⟨t, none, r, r⟩

/-- Mutable state of `EnhancedInstagramMonitor` relevant to scheduling:
the shared queue, the per-username task map (a Python dict, modelled as
an insertion-ordered association list), and the loop flag. -/
structure EnhancedInstagramMonitor where
  monitor_queue : List MonitorData
  monitoring_tasks : List (String × MonitorData)
  is_sequential_running : Bool

/-- The monitor state right after `__init__`. -/
def EnhancedInstagramMonitor.init : EnhancedInstagramMonitor :=
  ⟨[], [], false⟩

/-- Python dict key-membership test on the task map. -/
def tasksContains (tasks : List (String × MonitorData)) (k : String) : Bool :=
  tasks.any (fun p => p.1 == k)

/-- Python dict assignment `tasks[k] = v`: overwrite in place, else
append. -/
def tasksInsert (tasks : List (String × MonitorData)) (k : String) (v : MonitorData) :
    List (String × MonitorData) :=
  if tasksContains tasks k then
    tasks.map (fun p => if p.1 == k then (k, v) else p)
  else tasks ++ [(k, v)]

/-- The body of `EnhancedInstagramMonitor.start_monitoring`: flip the
loop flag (spawning the loop task is an external effect), build the new
`MonitorData` with `is_banned_state = (monitor_type == 'unban')`, append
it to the queue, store it in the task map, and return `True`
unconditionally — the method itself performs no duplicate check. -/
def start_monitoring (m : EnhancedInstagramMonitor) (username monitor_type : String)
    (send_func : ℕ) (now : ℚ) (session_id : ℤ) : EnhancedInstagramMonitor × Bool :=
  let m := { m with is_sequential_running := true }
  let md : MonitorData :=
    { username := username, monitor_type := monitor_type, send_func := send_func
      start_time := now, is_banned_state := (monitor_type == "unban")
      session_id := session_id }
  ({ m with
      monitor_queue := m.monitor_queue ++ [md]
      monitoring_tasks := tasksInsert m.monitoring_tasks username md }, true)

/-- Outcome of the `/ban` command of `enhanced_bot.py`. -/
inductive CommandOutcome where
  | not_authorized
  | usage_error
  | already_monitoring
  | already_banned
  | cannot_monitor
  | started
deriving DecidableEq, Repr

/-- The control flow of the `/ban` command handler (`enhanced_bot.py`):
authorization check, usage check, username normalisation, duplicate-watch
rejection against `monitor.monitoring_tasks`, the status pre-check
(`current_status` is the `st` field from the external lookup), and
finally the `start_monitoring` call.  The `/unban` handler has the same
guard structure with the accept/reject statuses swapped. -/
def ban_command (m : EnhancedInstagramMonitor) (authorized : Bool)
    (username : String) (current_status : Option String) (send_func : ℕ)
    (now : ℚ) (session_id : ℤ) : EnhancedInstagramMonitor × CommandOutcome :=
  let normalized := pyRemoveChar (pyStrip username) '@'
  if !authorized then (m, .not_authorized)
  else if username == "" then (m, .usage_error)
  else if tasksContains m.monitoring_tasks normalized then (m, .already_monitoring)
  else if current_status == some "not_found" then (m, .already_banned)
  else if current_status != some "ok" then (m, .cannot_monitor)
  else ((start_monitoring m normalized "ban" send_func now session_id).1, .started)

/-- The duplicate-watch invariant: every identity has at most one entry
in the live queue, and every queued item is registered in the task map. -/
def OneItemPerIdentity (m : EnhancedInstagramMonitor) : Prop :=
  (∀ name : String, m.monitor_queue.countP (fun md => md.username == name) ≤ 1) ∧
  (∀ md ∈ m.monitor_queue, tasksContains m.monitoring_tasks md.username = true)

/-- The scenario item of the disappearance-watch claims: exactly the
`MonitorData` that `start_monitoring` enqueues for a `'ban'` watch
(`is_banned_state = False`). -/
def mdTarget : MonitorData :=
  { username := "target", monitor_type := "ban", send_func := 0, start_time := 0
    is_banned_state := false, session_id := 1 }

/-- A failing attempt response (HTTP 500) used by concrete retry runs. -/
def fail500 : APIResponse :=
  { success := false, data := [], status_code := 500, error := some "HTTP 500" }

/-- A failing attempt response (HTTP 404) used by concrete retry runs. -/
def fail404 : APIResponse :=
  { success := false, data := [], status_code := 404,
    error := some "HTTP 404 - Not found" }

theorem mark_failure_urls (m : APIURLManager) (now : ℚ) (url : String) :
    (m.mark_failure now url).urls = m.urls := by
  simp only [APIURLManager.mark_failure]
  split <;> rfl

theorem mark_success_urls (m : APIURLManager) (now : ℚ) (url : String) (rt : ℚ) :
    (m.mark_success now url rt).urls = m.urls := by
  simp only [APIURLManager.mark_success]
  split <;> rfl

theorem mark_failure_stats_other (m : APIURLManager) (now : ℚ) (url v : String)
    (h : v ≠ url) : (m.mark_failure now url).url_stats v = m.url_stats v := by
  simp only [APIURLManager.mark_failure]
  split
  · simp [updateStats, h]
  · rfl

theorem mark_success_stats_other (m : APIURLManager) (now : ℚ) (url v : String)
    (rt : ℚ) (h : v ≠ url) :
    (m.mark_success now url rt).url_stats v = m.url_stats v := by
  simp only [APIURLManager.mark_success]
  split
  · simp [updateStats, h]
  · rfl

theorem mark_failure_stats_self (m : APIURLManager) (now : ℚ) (url : String)
    (h : url ∈ m.urls) :
    (m.mark_failure now url).url_stats url =
      (let s := m.url_stats url
       { s with failure_count := s.failure_count + 1
                consecutive_failures := s.consecutive_failures + 1
                last_failure := some now
                is_active := if s.consecutive_failures + 1 ≥ 3 then false
                             else s.is_active }) := by
  simp [APIURLManager.mark_failure, h, updateStats]

theorem mark_success_stats_self (m : APIURLManager) (now : ℚ) (url : String)
    (rt : ℚ) (h : url ∈ m.urls) :
    (m.mark_success now url rt).url_stats url =
      (let s := m.url_stats url
       { s with success_count := s.success_count + 1
                consecutive_failures := 0
                last_success := some now
                is_active := true
                total_response_time := s.total_response_time + rt
                avg_response_time :=
                  (s.total_response_time + rt) / ((s.success_count : ℚ) + 1) }) := by
  simp [APIURLManager.mark_success, h, updateStats]

/-- C5: for an endpoint in the pool, three consecutive `mark_failure`
calls leave `is_active = false`; a subsequent `mark_success` resets
`consecutive_failures` to 0 and reactivates that endpoint, while the
statistics (in particular the active flag) of every other endpoint are
untouched by all four calls. -/
theorem three_failures_deactivate_success_reactivates
    (m : APIURLManager) (url : String) (h : url ∈ m.urls) (t₁ t₂ t₃ t₄ rt : ℚ) :
    (((((m.mark_failure t₁ url).mark_failure t₂ url).mark_failure t₃ url)).url_stats url).is_active = false ∧
    (((((m.mark_failure t₁ url).mark_failure t₂ url).mark_failure t₃ url).mark_success t₄ url rt).url_stats url).consecutive_failures = 0 ∧
    (((((m.mark_failure t₁ url).mark_failure t₂ url).mark_failure t₃ url).mark_success t₄ url rt).url_stats url).is_active = true ∧
    ∀ v, v ≠ url →
      ((((m.mark_failure t₁ url).mark_failure t₂ url).mark_failure t₃ url).mark_success t₄ url rt).url_stats v = m.url_stats v := by
  have h1 : url ∈ (m.mark_failure t₁ url).urls := by
    rw [mark_failure_urls]; exact h
  have h2 : url ∈ ((m.mark_failure t₁ url).mark_failure t₂ url).urls := by
    rw [mark_failure_urls, mark_failure_urls]; exact h
  have h3 : url ∈ (((m.mark_failure t₁ url).mark_failure t₂ url).mark_failure t₃ url).urls := by
    rw [mark_failure_urls, mark_failure_urls, mark_failure_urls]; exact h
  refine ⟨?_, ?_, ?_, ?_⟩
  · rw [mark_failure_stats_self _ _ _ h2, mark_failure_stats_self _ _ _ h1,
        mark_failure_stats_self _ _ _ h]
    simp
  · rw [mark_success_stats_self _ _ _ _ h3]
  · rw [mark_success_stats_self _ _ _ _ h3]
  · intro v hv
    rw [mark_success_stats_other _ _ _ _ _ hv, mark_failure_stats_other _ _ _ _ hv,
        mark_failure_stats_other _ _ _ _ hv, mark_failure_stats_other _ _ _ _ hv]

/-- Witness for the endpoint-deactivation theorem at a concrete
two-endpoint pool. -/
theorem three_failures_deactivate_success_reactivates_witness :
    ((((((APIURLManager.init ["A", "B"] .health_based).mark_failure 1 "A").mark_failure 2 "A").mark_failure 3 "A")).url_stats "A").is_active = false ∧
    (((((((APIURLManager.init ["A", "B"] .health_based).mark_failure 1 "A").mark_failure 2 "A").mark_failure 3 "A").mark_success 4 "A" 1).url_stats "A").consecutive_failures = 0) ∧
    (((((((APIURLManager.init ["A", "B"] .health_based).mark_failure 1 "A").mark_failure 2 "A").mark_failure 3 "A").mark_success 4 "A" 1).url_stats "A").is_active = true) ∧
    ∀ v, v ≠ "A" →
      ((((((APIURLManager.init ["A", "B"] .health_based).mark_failure 1 "A").mark_failure 2 "A").mark_failure 3 "A").mark_success 4 "A" 1).url_stats v = (APIURLManager.init ["A", "B"] .health_based).url_stats v) :=
  three_failures_deactivate_success_reactivates (APIURLManager.init ["A", "B"] .health_based)
    "A" (by simp [APIURLManager.init]) 1 2 3 4 1

/-- C10 (frame property): `mark_success` and `mark_failure` on a URL
outside the configured pool are complete no-ops — the manager state,
hence every endpoint's statistics, is unchanged, and no error is
raised. -/
theorem mark_outside_pool_is_noop (m : APIURLManager) (url : String)
    (h : url ∉ m.urls) (now rt : ℚ) :
    m.mark_success now url rt = m ∧ m.mark_failure now url = m := by
  constructor
  · simp [APIURLManager.mark_success, h]
  · simp [APIURLManager.mark_failure, h]

/-- Witness for the frame property at a concrete pool and foreign URL. -/
theorem mark_outside_pool_is_noop_witness :
    (APIURLManager.init ["A", "B"] .health_based).mark_success 7 "C" 1 =
      APIURLManager.init ["A", "B"] .health_based ∧
    (APIURLManager.init ["A", "B"] .health_based).mark_failure 7 "C" =
      APIURLManager.init ["A", "B"] .health_based :=
  mark_outside_pool_is_noop (APIURLManager.init ["A", "B"] .health_based) "C"
    (by simp [APIURLManager.init]) 7 1

/-- C7: an untested endpoint (no recorded successes or failures) scores
exactly 0.5, and for fixed success count, failure count and average
response time the health score is monotonically non-increasing in
`consecutive_failures`. -/
theorem calculate_score_untested_and_monotone :
    (∀ s : URLStats, s.success_count = 0 → s.failure_count = 0 →
      calculate_score s = 0.5) ∧
    (∀ (s : URLStats) (c₁ c₂ : ℕ), c₁ ≤ c₂ →
      calculate_score { s with consecutive_failures := c₂ } ≤
      calculate_score { s with consecutive_failures := c₁ }) := by
  constructor
  · intro s h1 h2
    simp [calculate_score, h1, h2]
  · intro s c₁ c₂ hc
    by_cases htot : ((s.success_count : ℚ) + (s.failure_count : ℚ)) = 0
    · simp [calculate_score, htot]
    · simp only [calculate_score, htot, if_false]
      have hcast : (c₁ : ℚ) ≤ (c₂ : ℚ) := by exact_mod_cast hc
      gcongr

/-- Witness for the health-score theorem: a fresh endpoint scores 0.5,
and raising `consecutive_failures` from 1 to 2 cannot raise the score. -/
theorem calculate_score_untested_and_monotone_witness :
    calculate_score URLStats.init = 0.5 ∧
    calculate_score { URLStats.init with consecutive_failures := 2 } ≤
      calculate_score { URLStats.init with consecutive_failures := 1 } :=
  ⟨calculate_score_untested_and_monotone.1 URLStats.init rfl rfl,
   calculate_score_untested_and_monotone.2 URLStats.init 1 2 (by decide)⟩

/-- C9: the account-age breakpoint table assigns creation year 2013 to
the numeric id 900990000, and `calculate_account_age` renders that year
(evaluated here at wall-clock year 2025). -/
theorem account_age_900990000_is_2013 :
    account_age_year 900990000 = some 2013 ∧
    calculate_account_age "900990000" 2025 = "12 years old (2013)" :=
  ⟨rfl, by rfl⟩


/-- C1 (failing run): for the item `start_monitoring` enqueues for a
disappearance watch on "target", the poll sequence
[present, present, absent] fires no alert at all: every
`_process_monitor_data` call raises `AttributeError` at its
`monitor_data.type` read (the dataclass field is `monitor_type`), so the
loop's exception handler just counts errors — after the third poll the
item is still queued with `consecutive_errors = 3` and the ban alert was
never sent, contradicting the specified scenario. -/
theorem disappearance_watch_poll_run_raises :
    (start_monitoring EnhancedInstagramMonitor.init "target" "ban" 0 0 1).1.monitor_queue
      = [mdTarget] ∧
    process_monitor_data (presentPoll 1) mdTarget {} = .error .attributeError ∧
    (monitor_run_polls 5 [presentPoll 1, presentPoll 2, absentPoll 3]
        (some mdTarget) {} []).alerts = [] ∧
    ((monitor_run_polls 5 [presentPoll 1, presentPoll 2, absentPoll 3]
        (some mdTarget) {} []).item.map (fun md => md.consecutive_errors)) = some 3 :=
  ⟨rfl, rfl, rfl, rfl⟩

/-- C2 (counterexample): `start_monitoring` does not reject a duplicate
watch — a second call for "alice" returns `True` and the live queue ends
up with two entries for the same identity. -/
theorem start_monitoring_duplicate_cex :
    (start_monitoring (start_monitoring EnhancedInstagramMonitor.init
        "alice" "ban" 0 0 1).1 "alice" "ban" 0 0 2).2 = true ∧
    ((start_monitoring (start_monitoring EnhancedInstagramMonitor.init
        "alice" "ban" 0 0 1).1 "alice" "ban" 0 0 2).1).monitor_queue.countP
      (fun md => md.username == "alice") = 2 :=
  ⟨rfl, rfl⟩

/-- C8 (counterexample): with the one-endpoint pool ["A"] and three
non-404 failures, every one of the three attempts uses endpoint "A" — the
attempts do not use pairwise-different endpoints. -/
theorem retry_attempts_same_endpoint_cex :
    ((get_instagram_profile BotConfig.default (APIURLManager.init ["A"] .health_based)
        "target" none 0 [fail500, fail500, fail500] []).map (fun r => r.urls_used))
      = some ["A", "A", "A"] ∧
    ¬ List.Chain' (fun a b => a ≠ b) ["A", "A", "A"] :=
  ⟨rfl, by
    intro h
    rw [List.chain'_cons] at h
    exact h.1 rfl⟩

/-- C3 (counterexample): a limiter with `requests_per_minute = 2`,
`burst = 2`, constructed at time 0 and driven by acquire calls at times
5, 5, 64, 64, admits all four calls at those times — the refill at t = 64
clears the sliding timestamp list, so the trailing 60-second window
ending at t = 64 contains 4 > requests_per_minute admissions. -/
theorem rate_limiter_window_cex :
    ((acquireRun ⟨2, 2⟩ 1 [5, 5, 64, 64] 0 (RLState.init ⟨2, 2⟩ 0)).map
        (fun r => admittedInWindow r.1 64)) = some 4 ∧
    ¬ (4 ≤ (RateLimiter.mk 2 2).requests_per_minute) := by
  constructor
  · norm_num [acquireRun, acquire, RLState.init, admittedInWindow]
  · decide

theorem foldl_best_mem (xs : List (String × ℚ)) (acc : String × ℚ) :
    xs.foldl (fun b y => if y.2 > b.2 then y else b) acc = acc ∨
    xs.foldl (fun b y => if y.2 > b.2 then y else b) acc ∈ xs := by
  induction xs generalizing acc with
  | nil => left; rfl
  | cons y ys ih =>
    rw [List.foldl_cons]
    rcases ih (if y.2 > acc.2 then y else acc) with h | h
    · rw [h]
      split
      · right; exact List.mem_cons_self _ _
      · left; rfl
    · right; exact List.mem_cons_of_mem _ h

theorem select_best_mem {l : List (String × ℚ)} {x : String × ℚ}
    (h : select_best l = some x) : x ∈ l := by
  cases l with
  | nil => simp [select_best] at h
  | cons a as =>
    simp only [select_best, Option.some.injEq] at h
    rcases foldl_best_mem as a with h2 | h2
    · rw [h] at h2
      rw [← h2]
      exact List.mem_cons_self _ _
    · rw [h] at h2
      exact List.mem_cons_of_mem _ h2


theorem get_next_url_urls (m : APIURLManager) (pick : ℕ) :
    (m.get_next_url pick).1.urls = m.urls := by
  cases hst : m.strategy <;> simp only [APIURLManager.get_next_url, hst] <;>
    first
    | rfl
    | (split <;> rfl)

theorem get_next_url_value (m : APIURLManager) (pick : ℕ) (hne : m.urls ≠ []) :
    ∃ url, (m.get_next_url pick).2 = some url ∧ url ∈ m.urls := by
  have hsub : ∀ u ∈ m.urls.filter (fun u => (m.url_stats u).is_active), u ∈ m.urls :=
    fun u hu => (List.mem_filter.mp hu).1
  set active := m.urls.filter (fun u => (m.url_stats u).is_active) with hactive
  have hpool : (if active = [] then m.urls else active) ≠ [] := by
    split
    · exact hne
    · assumption
  have hpoolsub : ∀ u ∈ (if active = [] then m.urls else active), u ∈ m.urls := by
    split
    · exact fun u hu => hu
    · exact hsub
  cases hst : m.strategy with
  | round_robin =>
    set pool := if active = [] then m.urls else active with hpoolDef
    set idx := if m.current_index ≥ pool.length then 0 else m.current_index with hidx
    have hlen : 0 < pool.length := List.length_pos.mpr hpool
    have hidxlt : idx < pool.length := by
      rw [hidx]
      split
      · exact hlen
      · omega
    obtain ⟨u, hu⟩ : ∃ u, pool.get? idx = some u := by
      cases hget : pool.get? idx with
      | none => exact absurd (List.get?_eq_none.mp hget) (by omega)
      | some u => exact ⟨u, rfl⟩
    refine ⟨u, ?_, hpoolsub u (List.get?_mem hu)⟩
    simp only [APIURLManager.get_next_url, hst, ← hactive, ← hpoolDef, ← hidx, hu]
  | random =>
    set pool := if active = [] then m.urls else active with hpoolDef
    have hlen : 0 < pool.length := List.length_pos.mpr hpool
    have hmax : max pool.length 1 = pool.length := by omega
    have hidxlt : pick % max pool.length 1 < pool.length := by
      rw [hmax]
      exact Nat.mod_lt _ hlen
    obtain ⟨u, hu⟩ : ∃ u, pool.get? (pick % max pool.length 1) = some u := by
      cases hget : pool.get? (pick % max pool.length 1) with
      | none => exact absurd (List.get?_eq_none.mp hget) (by omega)
      | some u => exact ⟨u, rfl⟩
    refine ⟨u, ?_, hpoolsub u (List.get?_mem hu)⟩
    simp only [APIURLManager.get_next_url, hst, ← hactive, ← hpoolDef, hu]
  | health_based =>
    set stats := if active = [] then resetAllActive m.url_stats else m.url_stats
      with hstatsDef
    set pool := if active = [] then m.urls else active with hpoolDef
    set scored := pool.map (fun u => (u, calculate_score (stats u))) with hscored
    have hscne : scored ≠ [] := by
      rw [hscored]
      simp only [ne_eq, List.map_eq_nil_iff]
      exact hpool
    obtain ⟨x, hx⟩ : ∃ x, select_best scored = some x := by
      rcases hsc : scored with _ | ⟨a, as⟩
      · exact absurd hsc hscne
      · exact ⟨_, by rw [select_best]⟩
    have hmem : x ∈ scored := select_best_mem hx
    obtain ⟨u, hu, hux⟩ := List.mem_map.mp (hscored ▸ hmem)
    refine ⟨x.1, ?_, ?_⟩
    · simp only [APIURLManager.get_next_url, hst, ← hactive, ← hstatsDef, ← hpoolDef,
        ← hscored, hx, Option.map_some']
    · rw [← hux]
      exact hpoolsub u hu
  | other s =>
    obtain ⟨u, hu⟩ : ∃ u, m.urls.get? 0 = some u := by
      cases hget : m.urls.get? 0 with
      | none =>
        rcases hurls : m.urls with _ | ⟨a, as⟩
        · exact absurd hurls hne
        · rw [hurls] at hget
          simp at hget
      | some u => exact ⟨u, rfl⟩
    refine ⟨u, ?_, List.get?_mem hu⟩
    simp only [APIURLManager.get_next_url, hst, hu]

theorem get_next_url_stats_reset (m : APIURLManager) (pick : ℕ)
    (hstrat : m.strategy = .round_robin ∨ m.strategy = .random ∨
      m.strategy = .health_based)
    (hact : m.urls.filter (fun u => (m.url_stats u).is_active) = []) :
    (m.get_next_url pick).1.url_stats = resetAllActive m.url_stats := by
  rcases hstrat with h | h | h <;>
    simp only [APIURLManager.get_next_url, h, hact, if_pos] <;>
    first
    | rfl
    | (split <;> rfl)

/-- C6: with a non-empty pool, one of the three recognised strategies and
every endpoint inactive, `get_next_url` resets every endpoint back to
active and returns a URL from the (full) pool — it neither raises nor
returns nothing. -/
theorem get_next_url_resets_when_all_inactive
    (m : APIURLManager) (pick : ℕ) (hne : m.urls ≠ [])
    (hstrat : m.strategy = .round_robin ∨ m.strategy = .random ∨
      m.strategy = .health_based)
    (hdown : ∀ u ∈ m.urls, (m.url_stats u).is_active = false) :
    (∃ url, (m.get_next_url pick).2 = some url ∧ url ∈ m.urls) ∧
    ∀ u ∈ m.urls, ((m.get_next_url pick).1.url_stats u).is_active = true := by
  have hact : m.urls.filter (fun u => (m.url_stats u).is_active) = [] := by
    rw [List.filter_eq_nil_iff]
    intro u hu
    simp [hdown u hu]
  refine ⟨get_next_url_value m pick hne, ?_⟩
  intro u _
  rw [get_next_url_stats_reset m pick hstrat hact]
  rfl

/-- Witness: a two-endpoint health-based pool whose endpoints are both
inactive hands out an endpoint of the pool and reactivates both. -/
theorem get_next_url_resets_when_all_inactive_witness :
    (∃ url, (({ APIURLManager.init ["A", "B"] .health_based with
        url_stats := fun _ => { URLStats.init with is_active := false } } :
          APIURLManager).get_next_url 0).2 = some url ∧ url ∈ ["A", "B"]) ∧
    ∀ u ∈ ["A", "B"],
      ((({ APIURLManager.init ["A", "B"] .health_based with
        url_stats := fun _ => { URLStats.init with is_active := false } } :
          APIURLManager).get_next_url 0).1.url_stats u).is_active = true :=
  get_next_url_resets_when_all_inactive
    { APIURLManager.init ["A", "B"] .health_based with
      url_stats := fun _ => { URLStats.init with is_active := false } }
    0 (by simp [APIURLManager.init]) (Or.inr (Or.inr rfl))
    (fun u _ => rfl)

theorem tasksContains_insert_self (tasks : List (String × MonitorData)) (k : String)
    (v : MonitorData) : tasksContains (tasksInsert tasks k v) k = true := by
  unfold tasksInsert
  split
  case isTrue h =>
    unfold tasksContains at h ⊢
    rw [List.any_eq_true] at h ⊢
    obtain ⟨p, hp, hpk⟩ := h
    exact ⟨(k, v), List.mem_map.mpr ⟨p, hp, by simp [hpk]⟩, by simp⟩
  case isFalse h =>
    unfold tasksContains
    rw [List.any_eq_true]
    exact ⟨(k, v), List.mem_append_right _ (List.mem_singleton.mpr rfl), by simp⟩

theorem tasksContains_insert_of (tasks : List (String × MonitorData)) (k k' : String)
    (v : MonitorData) (h : tasksContains tasks k' = true) :
    tasksContains (tasksInsert tasks k v) k' = true := by
  unfold tasksInsert
  split
  · unfold tasksContains at h ⊢
    rw [List.any_eq_true] at h ⊢
    obtain ⟨p, hp, hpk⟩ := h
    by_cases hk : (p.1 == k) = true
    · refine ⟨(k, v), List.mem_map.mpr ⟨p, hp, by simp [hk]⟩, ?_⟩
      have h1 : p.1 = k := by simpa using hk
      have h2 : p.1 = k' := by simpa using hpk
      simp [← h1, h2]
    · exact ⟨p, List.mem_map.mpr ⟨p, hp, by simp [hk]⟩, hpk⟩
  · unfold tasksContains at h ⊢
    rw [List.any_eq_true] at h ⊢
    obtain ⟨p, hp, hpk⟩ := h
    exact ⟨p, List.mem_append_left _ hp, hpk⟩

theorem start_monitoring_preserves_inv (m : EnhancedInstagramMonitor)
    (username monitor_type : String) (sf : ℕ) (now : ℚ) (sid : ℤ)
    (hInv : OneItemPerIdentity m)
    (hnew : tasksContains m.monitoring_tasks username = false) :
    OneItemPerIdentity (start_monitoring m username monitor_type sf now sid).1 := by
  obtain ⟨h1, h2⟩ := hInv
  constructor
  · intro name
    simp only [start_monitoring, List.countP_append]
    by_cases hname : username = name
    · subst hname
      have hzero : List.countP (fun md => md.username == username) m.monitor_queue = 0 := by
        rw [List.countP_eq_zero]
        intro md hmd hbeq
        have heq : md.username = username := by simpa using hbeq
        have hc := h2 md hmd
        rw [heq] at hc
        rw [hc] at hnew
        simp at hnew
      rw [hzero]
      simp
    · have hcnt := h1 name
      have hone :
          List.countP (fun md => md.username == name)
            ([{ username := username, monitor_type := monitor_type, send_func := sf
                start_time := now, is_banned_state := (monitor_type == "unban")
                session_id := sid }] : List MonitorData) = 0 := by
        simp [hname]
      rw [hone]
      omega
  · intro md hmd
    simp only [start_monitoring] at hmd ⊢
    rw [List.mem_append] at hmd
    rcases hmd with h | h
    · exact tasksContains_insert_of _ _ _ _ (h2 md h)
    · rw [List.mem_singleton] at h
      subst h
      exact tasksContains_insert_self _ _ _

/-- C2 (amended): the ban command layer preserves the one-item-per-identity
invariant, and a command for an identity that is already in
`monitoring_tasks` is rejected outright — the state is unchanged and
`start_monitoring` is never reached.  (`start_monitoring` itself does not
reject duplicates; see the counterexample.) -/
theorem ban_command_rejects_duplicates
    (m : EnhancedInstagramMonitor) (authorized : Bool) (username : String)
    (cs : Option String) (sf : ℕ) (now : ℚ) (sid : ℤ)
    (hInv : OneItemPerIdentity m) :
    OneItemPerIdentity (ban_command m authorized username cs sf now sid).1 ∧
    (authorized = true → username ≠ "" →
      tasksContains m.monitoring_tasks (pyRemoveChar (pyStrip username) '@') = true →
      ban_command m authorized username cs sf now sid = (m, .already_monitoring)) := by
  constructor
  · simp only [ban_command]
    split
    · exact hInv
    split
    · exact hInv
    split
    · exact hInv
    split
    · exact hInv
    split
    · exact hInv
    rename_i hcont _ _
    exact start_monitoring_preserves_inv m _ "ban" sf now sid hInv
      (eq_false_of_ne_true hcont)
  · intro ha hu hcont
    have hu' : (username == "") = false := by
      simpa using hu
    simp [ban_command, ha, hu', hcont]

/-- Witness: after "alice" is being monitored, an authorized second ban
command for "alice" is rejected with the state unchanged. -/
theorem ban_command_rejects_duplicates_witness :
    ban_command (start_monitoring EnhancedInstagramMonitor.init "alice" "ban" 0 0 1).1
      true "alice" (some "ok") 0 0 2 =
      ((start_monitoring EnhancedInstagramMonitor.init "alice" "ban" 0 0 1).1,
       CommandOutcome.already_monitoring) := by
  have hInv0 : OneItemPerIdentity EnhancedInstagramMonitor.init := by
    constructor
    · intro name
      simp [EnhancedInstagramMonitor.init]
    · intro md hmd
      simp [EnhancedInstagramMonitor.init] at hmd
  exact (ban_command_rejects_duplicates _ true "alice" (some "ok") 0 0 2
    (start_monitoring_preserves_inv _ "alice" "ban" 0 0 1 hInv0 rfl)).2
    rfl (by decide) rfl

theorem profile_retry_loop_404 (cfg : BotConfig) (username : String)
    (proxy : Option String) (now : ℚ) (r : APIResponse) (hr : r.success = false)
    (hr404 : r.status_code = 404) (restOracle : List APIResponse) :
    ∀ (pre : List APIResponse) (attempts : List ℕ) (mgr : APIURLManager)
      (picks : List ℕ) (used : List String) (delays : List ℚ) (n : ℕ),
      mgr.urls ≠ [] →
      pre.length < attempts.length →
      (∀ p ∈ pre, p.success = false ∧ p.status_code ≠ 404) →
      ∃ run, profile_retry_loop cfg username proxy now attempts mgr
          (pre ++ r :: restOracle) picks used delays n = some run ∧
        run.result.success = true ∧
        dictGet run.result.data "st" = some (.pstr "not_found") ∧
        run.result.status_code = 404 ∧
        run.attempts = n + pre.length + 1 := by
  intro pre
  induction pre with
  | nil =>
    intro attempts mgr picks used delays n hne hlt hpre
    cases attempts with
    | nil => simp at hlt
    | cons a rest =>
      obtain ⟨url, hurl, hmem⟩ := get_next_url_value mgr (picks.headD 0) hne
      have h404 : (r.status_code == 404) = true := by simp [hr404]
      refine ⟨⟨notFound404 username proxy r.response_time (some url),
              (mgr.get_next_url (picks.headD 0)).1.mark_failure now url,
              used ++ [url], delays, n + 1⟩, ?_, rfl, ?_, rfl, ?_⟩
      · simp only [profile_retry_loop, List.nil_append, hurl, hr, h404,
          Bool.false_eq_true, if_false, if_true]
      · simp [notFound404, dictGet]
      · simp
  | cons p pre' ih =>
    intro attempts mgr picks used delays n hne hlt hpre
    cases attempts with
    | nil => simp at hlt
    | cons a rest =>
      have hp := hpre p (List.mem_cons_self _ _)
      obtain ⟨url, hurl, hmem⟩ := get_next_url_value mgr (picks.headD 0) hne
      have hrest : rest.isEmpty = false := by
        cases rest with
        | nil => simp at hlt
        | cons b bs => rfl
      have hne' : ((mgr.get_next_url (picks.headD 0)).1.mark_failure now url).urls ≠ [] := by
        rw [mark_failure_urls, get_next_url_urls]
        exact hne
      have hlt' : pre'.length < rest.length := by
        simp at hlt
        omega
      obtain ⟨run, hrun, h1, h2, h3, h4⟩ :=
        ih rest ((mgr.get_next_url (picks.headD 0)).1.mark_failure now url) picks.tail
          (used ++ [url]) (delays ++ [cfg.API_RETRY_DELAY * 2 ^ a]) (n + 1) hne' hlt'
          (fun q hq => hpre q (List.mem_cons_of_mem _ hq))
      refine ⟨run, ?_, h1, h2, h3, by simp only [List.length_cons]; omega⟩
      have hp404 : (p.status_code == 404) = false := by simp [hp.2]
      simp only [profile_retry_loop, List.cons_append, hurl, hp.1, hp404, hrest,
        Bool.false_eq_true, if_false, Bool.not_false, if_true]
      exact hrun

/-- C4: if some attempt of the retry loop comes back as a (non-success)
HTTP 404 and all earlier attempts were non-404 failures, the lookup
terminates right there with the "not found" verdict — `success = True`,
payload status `'not_found'`, status code 404 — consuming no further
attempts, regardless of the remaining retry budget.  (The Graph API path
is disabled, as in the default configuration.) -/
theorem lookup_404_short_circuits (cfg : BotConfig) (mgr : APIURLManager)
    (username : String) (proxy : Option String) (now : ℚ) (picks : List ℕ)
    (pre : List APIResponse) (r : APIResponse) (restOracle : List APIResponse)
    (hgraph : cfg.IG_GRAPH_API_ENABLED = false)
    (hne : mgr.urls ≠ [])
    (hlen : pre.length < cfg.API_RETRY_ATTEMPTS)
    (hpre : ∀ p ∈ pre, p.success = false ∧ p.status_code ≠ 404)
    (hr : r.success = false) (hr404 : r.status_code = 404) :
    ∃ run, get_instagram_profile cfg mgr username proxy now
        (pre ++ r :: restOracle) picks = some run ∧
      run.result.success = true ∧
      dictGet run.result.data "st" = some (.pstr "not_found") ∧
      run.result.status_code = 404 ∧
      run.attempts = pre.length + 1 := by
  have hlt : pre.length < (List.range cfg.API_RETRY_ATTEMPTS).length := by
    rw [List.length_range]
    exact hlen
  obtain ⟨run, hrun, h1, h2, h3, h4⟩ :=
    profile_retry_loop_404 cfg (pyLower (pyStrip (pyRemoveChar username '@'))) proxy now
      r hr hr404 restOracle pre (List.range cfg.API_RETRY_ATTEMPTS) mgr picks [] [] 0
      hne hlt hpre
  refine ⟨run, ?_, h1, h2, h3, by omega⟩
  simp only [get_instagram_profile, hgraph, Bool.false_and, Bool.false_eq_true, if_false]
  exact hrun

/-- Witness: a 404 on the second of three attempts ends the lookup with
the "not found" verdict after exactly two attempts. -/
theorem lookup_404_short_circuits_witness :
    ∃ run, get_instagram_profile BotConfig.default
        (APIURLManager.init ["A", "B"] .health_based) "target" none 0
        ([fail500] ++ fail404 :: []) [] = some run ∧
      run.result.success = true ∧
      dictGet run.result.data "st" = some (.pstr "not_found") ∧
      run.result.status_code = 404 ∧
      run.attempts = 2 :=
  lookup_404_short_circuits BotConfig.default
    (APIURLManager.init ["A", "B"] .health_based) "target" none 0 [] [fail500]
    fail404 []
    rfl (by simp [APIURLManager.init]) (by decide)
    (fun p hp => by
      rw [List.mem_singleton] at hp
      subst hp
      exact ⟨rfl, by decide⟩)
    rfl rfl

theorem profile_retry_loop_exhaust (cfg : BotConfig) (username : String)
    (proxy : Option String) (now : ℚ) :
    ∀ (resps : List APIResponse) (attempts : List ℕ) (mgr : APIURLManager)
      (picks : List ℕ) (used : List String) (delays : List ℚ) (n : ℕ),
      mgr.urls ≠ [] →
      resps ≠ [] →
      attempts.length = resps.length →
      (∀ p ∈ resps, p.success = false ∧ p.status_code ≠ 404) →
      ∃ run, profile_retry_loop cfg username proxy now attempts mgr resps picks
          used delays n = some run ∧
        resps.getLast? = some run.result ∧
        run.delays = delays ++
          (attempts.take (attempts.length - 1)).map
            (fun a => cfg.API_RETRY_DELAY * 2 ^ a) ∧
        run.urls_used = used ++ selector_trace now attempts.length mgr picks ∧
        run.attempts = n + resps.length := by
  intro resps
  induction resps with
  | nil =>
    intro attempts mgr picks used delays n hne hnonnil
    exact absurd rfl hnonnil
  | cons p resps' ih =>
    intro attempts mgr picks used delays n hne hnonnil hlen hfail
    cases attempts with
    | nil => simp at hlen
    | cons a rest =>
      have hp := hfail p (List.mem_cons_self _ _)
      have hp404 : (p.status_code == 404) = false := by simp [hp.2]
      obtain ⟨url, hurl, hmem⟩ := get_next_url_value mgr (picks.headD 0) hne
      cases resps' with
      | nil =>
        -- final attempt: the loop returns the last failure response
        have hrest : rest = [] := by
          simpa using hlen
        subst hrest
        refine ⟨⟨p, (mgr.get_next_url (picks.headD 0)).1.mark_failure now url,
                used ++ [url], delays, n + 1⟩, ?_, rfl, by simp, ?_, by simp⟩
        · simp only [profile_retry_loop, hurl, hp.1, hp404, Bool.false_eq_true,
            if_false, List.isEmpty_nil, Bool.not_true]
        · simp only [selector_trace, hurl, List.length_cons, List.length_nil]
      | cons q resps'' =>
        have hrestlen : rest.length = (q :: resps'').length := by
          simp only [List.length_cons] at hlen ⊢
          omega
        have hrestne : rest ≠ [] := by
          intro h
          rw [h] at hrestlen
          simp at hrestlen
        have hrestempty : rest.isEmpty = false := by
          cases rest with
          | nil => exact absurd rfl hrestne
          | cons b bs => rfl
        have hne' : ((mgr.get_next_url (picks.headD 0)).1.mark_failure now url).urls ≠ [] := by
          rw [mark_failure_urls, get_next_url_urls]
          exact hne
        obtain ⟨run, hrun, hlast, hdel, hurls, hatt⟩ :=
          ih rest ((mgr.get_next_url (picks.headD 0)).1.mark_failure now url)
            picks.tail (used ++ [url]) (delays ++ [cfg.API_RETRY_DELAY * 2 ^ a]) (n + 1)
            hne' (by simp) hrestlen
            (fun q' hq' => hfail q' (List.mem_cons_of_mem _ hq'))
        refine ⟨run, ?_, ?_, ?_, ?_,
          by simp only [List.length_cons] at hatt ⊢; omega⟩
        · simp only [profile_retry_loop, hurl, hp.1, hp404, Bool.false_eq_true,
            if_false, hrestempty, Bool.not_false, if_true]
          exact hrun
        · rw [List.getLast?_cons_cons]
          exact hlast
        · rw [hdel]
          obtain ⟨b, bs, rfl⟩ : ∃ b bs, rest = b :: bs := by
            cases rest with
            | nil => exact absurd rfl hrestne
            | cons b bs => exact ⟨b, bs, rfl⟩
          simp only [List.length_cons, Nat.add_sub_cancel, List.take_succ_cons,
            List.map_cons, List.append_assoc, List.singleton_append]
        · rw [hurls]
          simp only [List.length_cons, selector_trace, hurl, List.append_assoc,
            List.singleton_append]

/-- C8 (amended): when every attempt of the retry loop fails without a
404, the loop walks the endpoints handed out by the selector (penalising
each with `mark_failure` before re-selecting — nothing forces distinct
endpoints), sleeps `API_RETRY_DELAY * 2^attempt` between attempts, and
finally returns the last failure response after consuming the whole
budget. -/
theorem retry_exhaustion_behaviour (cfg : BotConfig) (mgr : APIURLManager)
    (username : String) (proxy : Option String) (now : ℚ) (picks : List ℕ)
    (resps : List APIResponse)
    (hgraph : cfg.IG_GRAPH_API_ENABLED = false)
    (hne : mgr.urls ≠ [])
    (hn : cfg.API_RETRY_ATTEMPTS = resps.length)
    (hnonnil : resps ≠ [])
    (hfail : ∀ p ∈ resps, p.success = false ∧ p.status_code ≠ 404) :
    ∃ run, get_instagram_profile cfg mgr username proxy now resps picks = some run ∧
      resps.getLast? = some run.result ∧
      run.delays = (List.range (resps.length - 1)).map
        (fun a => cfg.API_RETRY_DELAY * 2 ^ a) ∧
      run.urls_used = selector_trace now resps.length mgr picks ∧
      run.attempts = resps.length := by
  obtain ⟨run, hrun, hlast, hdel, hurls, hatt⟩ :=
    profile_retry_loop_exhaust cfg (pyLower (pyStrip (pyRemoveChar username '@')))
      proxy now resps (List.range cfg.API_RETRY_ATTEMPTS) mgr picks [] [] 0 hne
      hnonnil (by rw [List.length_range, hn]) hfail
  refine ⟨run, ?_, hlast, ?_, ?_, by omega⟩
  · simp only [get_instagram_profile, hgraph, Bool.false_and, Bool.false_eq_true,
      if_false]
    exact hrun
  · rw [hdel]
    simp only [List.length_range, List.nil_append, List.take_range, hn]
    have hmin : (resps.length - 1) ⊓ resps.length = resps.length - 1 := by
      omega
    rw [hmin]
  · rw [hurls]
    simp only [List.nil_append, List.length_range, hn]

/-- Witness: three HTTP-500 attempts against the pool ["A", "B"] consume
the whole budget, sleep the exponential delays, pick each endpoint via
the selector, and return the last failure. -/
theorem retry_exhaustion_behaviour_witness :
    ((get_instagram_profile BotConfig.default
        (APIURLManager.init ["A", "B"] .health_based) "target" none 0
        [fail500, fail500, fail500] []).map
      (fun r => (r.urls_used, r.delays, r.attempts))) =
      some (selector_trace 0 3 (APIURLManager.init ["A", "B"] .health_based) [],
            (List.range 2).map (fun a => (2 : ℚ) * 2 ^ a), 3) := by
  obtain ⟨run, hrun, hlast, hdel, hurls, hatt⟩ :=
    retry_exhaustion_behaviour BotConfig.default
      (APIURLManager.init ["A", "B"] .health_based) "target" none 0 []
      [fail500, fail500, fail500] rfl (by simp [APIURLManager.init]) rfl
      (by simp)
      (by
        intro p hp
        simp only [List.mem_cons, List.not_mem_nil, or_false] at hp
        rcases hp with rfl | rfl | rfl <;> exact ⟨rfl, by decide⟩)
  rw [hrun, Option.map_some']
  rw [hurls, hdel, hatt]
  rfl

theorem RLInv.mono {burst : ℕ} {now now' : ℚ} {st : RLState} {adms : List ℚ}
    (h : RLInv burst now st adms) (hle : now ≤ now') : RLInv burst now' st adms :=
  ⟨h.1, h.2.1, le_trans h.2.2.1 hle, fun a ha => le_trans (h.2.2.2.1 a ha) hle,
   h.2.2.2.2.1, h.2.2.2.2.2.1, h.2.2.2.2.2.2⟩

theorem RLInv.admit {burst : ℕ} {now : ℚ} {st : RLState} {adms : List ℚ}
    (hinv : RLInv burst now st adms)
    (h60 : now - st.last_refill < 60)
    (htok : ¬ st.burst_tokens ≤ 0)
    (requests' : List ℚ) :
    RLInv burst now ⟨requests', st.burst_tokens - 1, st.last_refill⟩ (adms ++ [now]) := by
  obtain ⟨h1, h2, h3, h4, h5, h6, h7⟩ := hinv
  push_neg at htok
  refine ⟨?_, ?_, h3, ?_, ?_, ?_, ?_⟩
  · show (0 : ℤ) ≤ st.burst_tokens - 1
    omega
  · show st.burst_tokens - 1 ≤ (burst : ℤ)
    omega
  · intro x hx
    rcases List.mem_append.mp hx with h | h
    · exact h4 x h
    · rw [List.mem_singleton] at h
      subst h
      exact le_refl _
  · show ∀ x ∈ adms ++ [now], x < st.last_refill + 60
    intro x hx
    rcases List.mem_append.mp hx with h | h
    · exact h5 x h
    · rw [List.mem_singleton] at h
      subst h
      linarith
  · show List.countP (fun x => decide (st.last_refill ≤ x)) (adms ++ [now]) +
      (st.burst_tokens - 1).toNat ≤ burst
    rw [List.countP_append]
    have hone : List.countP (fun x => decide (st.last_refill ≤ x)) [now] = 1 := by
      simp [h3]
    rw [hone]
    omega
  · intro u
    rw [List.countP_append]
    by_cases hu : now = u
    · subst hu
      have hone : List.countP (fun x => decide (x = now)) [now] = 1 := by simp
      rw [hone]
      have hmono : List.countP (fun x => decide (x = now)) adms ≤
          List.countP (fun x => decide (st.last_refill ≤ x)) adms := by
        apply List.countP_mono_left
        intro x hx hpx
        rw [decide_eq_true_eq] at hpx
        subst hpx
        simpa using h3
      omega
    · have hzero : List.countP (fun x => decide (x = u)) [now] = 0 := by simp [hu]
      rw [hzero]
      have := h7 u
      omega

theorem acquire_inv (rl : RateLimiter) :
    ∀ (fuel : ℕ) (now : ℚ) (st : RLState) (adms : List ℚ) (a : ℚ) (st' : RLState),
      RLInv rl.burst now st adms →
      acquire rl fuel now st = some (a, st') →
      now ≤ a ∧ RLInv rl.burst a st' (adms ++ [a]) := by
  intro fuel
  induction fuel with
  | zero =>
    intro now st adms a st' _ hacq
    simp [acquire] at hacq
  | succ fuel ih =>
    intro now st adms a st' hinv hacq
    simp only [acquire] at hacq
    obtain ⟨st1, hst1eq, hinv1, h60⟩ :
        ∃ st1, (if now - st.last_refill ≥ 60
                then (⟨[], (rl.burst : ℤ), now⟩ : RLState) else st) = st1 ∧
          RLInv rl.burst now st1 adms ∧ now - st1.last_refill < 60 := by
      by_cases href : now - st.last_refill ≥ 60
      · obtain ⟨h1, h2, h3, h4, h5, h6, h7⟩ := hinv
        have hall : ∀ x ∈ adms, x < now := by
          intro x hx
          have := h5 x hx
          linarith
        refine ⟨_, if_pos href, ⟨?_, le_refl _, le_refl _, h4, ?_, ?_, h7⟩, by norm_num⟩
        · exact Int.natCast_nonneg _
        · intro x hx
          have := hall x hx
          linarith
        · have hzero : adms.countP (fun x => decide ((now : ℚ) ≤ x)) = 0 := by
            rw [List.countP_eq_zero]
            intro x hx hdec
            rw [decide_eq_true_eq] at hdec
            exact absurd hdec (not_le.mpr (hall x hx))
          rw [hzero]
          simp
      · exact ⟨st, if_neg href, hinv, by linarith⟩
    rw [hst1eq] at hacq
    by_cases htok : st1.burst_tokens ≤ 0
    · rw [if_pos htok] at hacq
      have h := ih (now + 1) st1 adms a st' (hinv1.mono (by linarith)) hacq
      exact ⟨by linarith [h.1], h.2⟩
    · rw [if_neg htok] at hacq
      by_cases hrpm : (st1.requests.filter (fun r => r > now - 60)).length ≥
          rl.requests_per_minute
      · rw [if_pos hrpm] at hacq
        by_cases hsleep :
            60 - (now - (st1.requests.filter (fun r => r > now - 60)).headD 0) > 0
        · rw [if_pos hsleep] at hacq
          have hle : now ≤ now +
              (60 - (now - (st1.requests.filter (fun r => r > now - 60)).headD 0)) := by
            linarith
          have h := ih _
            ⟨st1.requests.filter (fun r => r > now - 60), st1.burst_tokens,
             st1.last_refill⟩ adms a st' (hinv1.mono hle) hacq
          exact ⟨le_trans hle h.1, h.2⟩
        · rw [if_neg hsleep] at hacq
          simp only [Option.some.injEq, Prod.mk.injEq] at hacq
          obtain ⟨rfl, rfl⟩ := hacq
          exact ⟨le_refl _, RLInv.admit hinv1 h60 htok _⟩
      · rw [if_neg hrpm] at hacq
        simp only [Option.some.injEq, Prod.mk.injEq] at hacq
        obtain ⟨rfl, rfl⟩ := hacq
        exact ⟨le_refl _, RLInv.admit hinv1 h60 htok _⟩

theorem acquireRun_inv (rl : RateLimiter) (fuel : ℕ) :
    ∀ (calls : List ℚ) (clock : ℚ) (st : RLState) (adms0 admsOut : List ℚ)
      (stF : RLState),
      RLInv rl.burst clock st adms0 →
      acquireRun rl fuel calls clock st = some (admsOut, stF) →
      ∃ clock', clock ≤ clock' ∧ RLInv rl.burst clock' stF (adms0 ++ admsOut) := by
  intro calls
  induction calls with
  | nil =>
    intro clock st adms0 admsOut stF hinv hrun
    simp only [acquireRun, Option.some.injEq, Prod.mk.injEq] at hrun
    obtain ⟨h1, h2⟩ := hrun
    subst h2
    refine ⟨clock, le_refl _, ?_⟩
    rw [← h1, List.append_nil]
    exact hinv
  | cons t ts ih =>
    intro clock st adms0 admsOut stF hinv hrun
    simp only [acquireRun] at hrun
    cases hacq : acquire rl fuel (max t clock) st with
    | none =>
      simp only [hacq] at hrun
      cases hrun
    | some pair =>
      obtain ⟨a, st'⟩ := pair
      simp only [hacq] at hrun
      have hstep := acquire_inv rl fuel (max t clock) st adms0 a st'
        (hinv.mono (le_max_right _ _)) hacq
      cases hrest : acquireRun rl fuel ts a st' with
      | none =>
        simp only [hrest] at hrun
        cases hrun
      | some pr =>
        obtain ⟨as, stF'⟩ := pr
        simp only [hrest, Option.some.injEq, Prod.mk.injEq] at hrun
        obtain ⟨h1, h2⟩ := hrun
        subst h2
        obtain ⟨clock', hc1, hc2⟩ := ih a st' (adms0 ++ [a]) as stF' hstep.2 hrest
        refine ⟨clock', le_trans (le_trans (le_max_right t clock) hstep.1) hc1, ?_⟩
        rw [← h1]
        rw [List.append_assoc, List.singleton_append] at hc2
        exact hc2

/-- C3 (amended): however a fresh RateLimiter is driven, the admissions
it grants satisfy two burst bounds — at any single instant at most
`burst` admissions occur (in particular right after a token refill), and
the admissions not older than the final refill number at most `burst`.
The trailing 60-second-window bound of `requests_per_minute` does not
hold in general, because every refill clears the sliding timestamp list
(see the counterexample). -/
theorem rate_limiter_burst_bound (rl : RateLimiter) (fuel : ℕ) (calls : List ℚ)
    (t0 clock : ℚ) (adms : List ℚ) (stF : RLState)
    (hclock : t0 ≤ clock)
    (hrun : acquireRun rl fuel calls clock (RLState.init rl t0) = some (adms, stF)) :
    (∀ t : ℚ, adms.countP (fun a => decide (a = t)) ≤ rl.burst) ∧
    adms.countP (fun a => decide (stF.last_refill ≤ a)) ≤ rl.burst := by
  have hinv0 : RLInv rl.burst clock (RLState.init rl t0) [] := by
    refine ⟨Int.natCast_nonneg _, by simp [RLState.init], hclock, by simp, by simp,
      by simp [RLState.init], by simp⟩
  obtain ⟨clock', hc, hinv⟩ :=
    acquireRun_inv rl fuel calls clock (RLState.init rl t0) [] adms stF hinv0 hrun
  rw [List.nil_append] at hinv
  refine ⟨hinv.2.2.2.2.2.2, ?_⟩
  have := hinv.2.2.2.2.2.1
  omega

/-- Witness: for the concrete run of the counterexample (two-token
limiter, calls at 5, 5, 64, 64) the single-instant and since-last-refill
admission counts respect the burst bound 2. -/
theorem rate_limiter_burst_bound_witness :
    List.countP (fun a => decide (a = (64 : ℚ))) [5, 5, 64, 64] ≤ 2 ∧
    List.countP (fun a => decide ((64 : ℚ) ≤ a)) [5, 5, 64, 64] ≤ 2 := by
  have hrun : acquireRun ⟨2, 2⟩ 1 [5, 5, 64, 64] 0 (RLState.init ⟨2, 2⟩ 0) =
      some ([5, 5, 64, 64], ⟨[64, 64], 0, 64⟩) := by
    norm_num [acquireRun, acquire, RLState.init]
  have h := rate_limiter_burst_bound ⟨2, 2⟩ 1 [5, 5, 64, 64] 0 0 [5, 5, 64, 64]
    ⟨[64, 64], 0, 64⟩ le_rfl hrun
  exact ⟨h.1 64, h.2⟩
